import Mathlib

/-!
Verification of the crossover-managed middleware against its specification.

The Go sources are embedded shallowly: each Go function that a claim is
about becomes a Lean definition over explicit state, and the claims become
theorems about those definitions.  Machine integers are modelled as `Nat`
or `Int` (the counters involved stay far below any overflow boundary, and
the Go code performs no wrapping arithmetic on them).  Fallible Go code
returns `Except`/`Option`, and a Go runtime panic is modelled as an
explicit result constructor.
-/

namespace Crossover

namespace Limiter

/-- Source constant `UserRateKeySuffix = "-rate"` from limiter/limitter.go. -/
def UserRateKeySuffix : String := "-rate"

/-- Source constant `UserRateLimitingWindow = 1` (seconds) from
limiter/limitter.go. -/
def UserRateLimitingWindow : Nat := 1

/-- Rate-counter key for an identity, as built by `limiter.allow`:
`fmt.Sprintf("%s%s", userId, UserRateKeySuffix)`. -/
def rateKey (userId : String) : String := userId ++ UserRateKeySuffix

/-- State of one per-identity rate-counter key in the KV store during a
single fixed window (the key does not expire during the runs we reason
about, matching "within one window").  `count` is the stored counter value
(0 when the key is absent, since the KV `Incr` of an absent key yields 1);
`expireCalls` instruments how many times `Expire` has been issued on the
key, so the expiry-arming discipline can be stated. -/
structure RateState where
  count : Nat
  expireCalls : Nat
deriving Repr, DecidableEq

/-- Embedding of `limiter.allow` (limiter/limitter.go lines 75-94) on the
success path of the KV store: increment the counter for the key; if the
post-increment value is exactly 1, set the expiry (recorded in
`expireCalls`); return whether the post-increment count is at most the
resolved limit.  The limit is a Go `int`, modelled as `Int`. -/
def allow (limit : Int) (s : RateState) : Bool × RateState :=
  let c := s.count + 1
  (decide ((c : Int) ≤ limit),
    { count := c
      expireCalls := if c = 1 then s.expireCalls + 1 else s.expireCalls })

/-- State of the rate counter after `n` sequential requests of one identity
inside one window, starting from an absent key. -/
def stateAfter (limit : Int) : Nat → RateState
  | 0 => { count := 0, expireCalls := 0 }
  | n + 1 => (allow limit (stateAfter limit n)).2

/-- Outcome of the `n`-th request (1-based) of the window: the Bool that
`limiter.allow` returns for it. -/
def nthAllowed (limit : Int) (n : Nat) : Bool :=
  (allow limit (stateAfter limit (n - 1))).1

/-- Counter value equals the number of requests served so far in the window. -/
theorem stateAfter_count (limit : Int) (n : Nat) :
    (stateAfter limit n).count = n := by
  induction n with
  | zero => rfl
  | succ k ih => simp [stateAfter, allow, ih]

/-- Expire has been called exactly once as soon as one request has been
served, and never before. -/
theorem stateAfter_expire (limit : Int) (n : Nat) :
    (stateAfter limit n).expireCalls = if n = 0 then 0 else 1 := by
  induction n with
  | zero => rfl
  | succ k ih =>
    show (allow limit (stateAfter limit k)).2.expireCalls = _
    simp only [allow, stateAfter_count, ih]
    rcases Nat.eq_zero_or_pos k with hk | hk
    · subst hk; simp
    · have h1 : ¬ (k + 1 = 1) := by omega
      have h0 : ¬ (k = 0) := by omega
      simp [h0, h1]

/-- C1: for every tenant identity with resolved quota Q, the Nth request
inside one 1-second fixed window is allowed if and only if N ≤ Q — the
allow step increments the per-identity counter and returns allowed exactly
when the post-increment count is at most the resolved limit — and request
N = Q + 1 in the same window is denied. -/
theorem nth_request_allowed_iff (Q : Int) (N : Nat) (h : 1 ≤ N) :
    (nthAllowed Q N = true ↔ (N : Int) ≤ Q) ∧
      nthAllowed Q (Q.toNat + 1) = false := by
  constructor
  · unfold nthAllowed
    simp only [allow, stateAfter_count]
    rw [Nat.sub_add_cancel h]
    simp
  · unfold nthAllowed
    simp only [allow, stateAfter_count, Nat.add_sub_cancel]
    rw [decide_eq_false_iff_not]
    push_cast
    omega

/-- Witness for C1 at quota 2: the 3rd request in the window is not allowed
(3 ≤ 2 is false), and request 2 + 1 is denied. -/
theorem nth_request_allowed_iff_witness :
    (nthAllowed 2 3 = true ↔ ((3 : Nat) : Int) ≤ 2) ∧
      nthAllowed 2 ((2 : Int).toNat + 1) = false :=
  nth_request_allowed_iff 2 3 (by decide)

/-- C2: within one window, the expiry of the rate-counter key is set
exactly once — by the request whose post-increment count equals 1 (the very
first of the window) — and an increment whose post-increment count is
greater than 1 (here the step after `k ≥ 1` requests, whose post-increment
count is `k + 1 > 1`) never re-arms it. -/
theorem expiry_set_once (limit : Int) (N k : Nat) (hN : 1 ≤ N) (hk : 1 ≤ k) :
    (stateAfter limit N).expireCalls = 1 ∧
      (allow limit (stateAfter limit 0)).2.expireCalls = 1 ∧
      (allow limit (stateAfter limit k)).2.expireCalls
        = (stateAfter limit k).expireCalls := by
  refine ⟨?_, rfl, ?_⟩
  · have h0 : ¬ (N = 0) := by omega
    simp [stateAfter_expire, h0]
  · simp only [allow, stateAfter_count]
    have h1 : ¬ (k + 1 = 1) := by omega
    simp [h1]

/-- Witness for C2 with limit 5: after 3 requests the expiry was set once;
the first request set it; the step after 2 requests did not re-arm it. -/
theorem expiry_set_once_witness :
    (stateAfter 5 3).expireCalls = 1 ∧
      (allow 5 (stateAfter 5 0)).2.expireCalls = 1 ∧
      (allow 5 (stateAfter 5 2)).2.expireCalls = (stateAfter 5 2).expireCalls :=
  expiry_set_once 5 3 2 (by decide) (by decide)

/-! ## Plan resolver (limiter/plan_proxy, src/unnamed/part_001)

The HTTP collaborators are modelled by the outcome of the round trip:
either the transport fails (`httpClient.Do` returns an error, so the
returned response pointer is nil), or a response with a status code
arrives whose body either decodes into `PlanProxyResponse` or does not. -/

/-- Outcome of decoding the response body into `PlanProxyResponse`:
either the decoded `data.request_limit` field (a Go `int`), or a decode
failure. -/
inductive BodyDecode
  | ok (requestLimit : Int)
  | decodeError
deriving Repr, DecidableEq

/-- Outcome of `proxy.httpClient.Do`: a transport error (nil response), or
a response with a status code and a body. -/
inductive DoResult
  | transportError
  | response (status : Nat) (body : BodyDecode)
deriving Repr, DecidableEq

/-- Result of `PlanProxy.fetch` as observed by its caller: the plan string,
an error value, or a runtime panic. -/
inductive FetchResult
  | ok (plan : String)
  | fetchError (msg : String)
  | panicked
deriving Repr, DecidableEq

/-- Embedding of `PlanProxy.fetch` (src/unnamed/part_001 lines 46-77).
The source registers `defer httpRes.Body.Close()` immediately after
`httpClient.Do` and BEFORE checking its error; when `Do` fails it returns a
nil response, so the deferred `Close` dereferences nil and the function
panics instead of returning — that is the `.panicked` branch.  A non-200
status and a body-decode failure each return the opaque error
`"something went wrong"` (details are only logged); on success the limit is
rendered with `strconv.Itoa`.  (`http.NewRequest` on the already-parsed URL
cannot fail and is not modelled as a failure point.) -/
def fetch : DoResult → FetchResult
  | .transportError => .panicked
  | .response status body =>
    if status ≠ 200 then .fetchError "something went wrong"
    else
      match body with
      | .decodeError => .fetchError "something went wrong"
      | .ok lim => .ok (toString lim)

/-- C4 (code evaluated at the failing input): a transport error makes
`fetch` panic — the deferred close of a nil response body — rather than
return the opaque failure; whereas a non-200 status and a decode error do
collapse to the single opaque `"something went wrong"` failure, and a 200
response with a well-formed body returns the quota string. -/
theorem fetch_transport_error_panics :
    fetch .transportError = .panicked ∧
      fetch (.response 404 (.ok 5)) = .fetchError "something went wrong" ∧
      fetch (.response 200 .decodeError) = .fetchError "something went wrong" ∧
      fetch (.response 200 (.ok 7)) = .ok "7" := by
  refine ⟨rfl, rfl, rfl, rfl⟩

end Limiter

namespace Activity

/-- Source struct `activityRequestDto` (activity/activity.go lines 16-19):
one usage event, a request key and an item count (a Go `int`). -/
structure ActivityRequestDto where
  requestId : String
  count : Int
deriving Repr, DecidableEq

/-- Embedding of `LogActivity` (activity/activity.go lines 56-74).  The
buffered channel `logsChannel` of capacity `bufferSize` is modelled by the
list of entries currently buffered; the non-blocking `select` send succeeds
exactly when the buffer holds fewer than `cap` entries, and otherwise falls
to the `default` branch, which drops the entry and logs a warning.  The
returned Bool records whether the drop warning was logged; the Go function
returns nothing and never blocks or fails. -/
def LogActivity (cap : Nat) (chan : List ActivityRequestDto)
    (e : ActivityRequestDto) : List ActivityRequestDto × Bool :=
  if chan.length < cap then (chan ++ [e], false) else (chan, true)

/-- C7: if the buffer has free capacity the record is enqueued at the back
with no warning; if the buffer is full the record is dropped and the
warning is logged; in both cases the call returns a value (total function,
no failure signal). -/
theorem logActivity_enqueue_or_drop (cap : Nat) (chan : List ActivityRequestDto)
    (e : ActivityRequestDto) :
    (chan.length < cap → LogActivity cap chan e = (chan ++ [e], false)) ∧
      (¬ chan.length < cap → LogActivity cap chan e = (chan, true)) := by
  constructor
  · intro h; simp [LogActivity, h]
  · intro h; simp [LogActivity, h]

/-- Witness for C7: with capacity 1, an empty buffer accepts the record. -/
theorem logActivity_enqueue_or_drop_witness :
    LogActivity 1 [] { requestId := "r", count := 1 }
      = ([{ requestId := "r", count := 1 }], false) :=
  (logActivity_enqueue_or_drop 1 [] { requestId := "r", count := 1 }).1
    (by decide)

/-- Event consumed by one iteration of the `BatchProcessor` loop
(activity/activity.go lines 77-96): either a log entry is received from
the buffer channel, or the flush-interval timer fires. -/
inductive BatchEvent
  | recv (e : ActivityRequestDto)
  | timerFire
deriving Repr, DecidableEq

/-- Observable effect of one iteration of the `BatchProcessor` loop:
the accumulated batch afterwards, the batch flushed by this iteration (if
any), and whether this iteration rearmed the flush-interval timer
(`flushTimer.Reset`). -/
structure BatchStepResult where
  batch : List ActivityRequestDto
  flushed : Option (List ActivityRequestDto)
  timerRearmed : Bool
deriving Repr, DecidableEq

/-- Embedding of the body of the `BatchProcessor` `select` loop
(activity/activity.go lines 80-95).  On a received entry, append it to the
batch and flush when `len(batch) >= batchSize` — this branch contains no
`flushTimer.Reset`, so the timer is not rearmed.  On a timer fire, flush a
non-empty batch and then rearm the timer; the timer is rearmed on every
timer fire, whether or not anything was flushed.  `batchSize` is a Go
`int`, modelled as `Int`. -/
def batchProcessorStep (batchSize : Int) (batch : List ActivityRequestDto) :
    BatchEvent → BatchStepResult
  | .recv e =>
    let b := batch ++ [e]
    if batchSize ≤ (b.length : Int) then
      { batch := [], flushed := some b, timerRearmed := false }
    else
      { batch := b, flushed := none, timerRearmed := false }
  | .timerFire =>
    if 0 < batch.length then
      { batch := [], flushed := some batch, timerRearmed := true }
    else
      { batch := batch, flushed := none, timerRearmed := true }

/-- C3 counterexample: with batch size 1 and an empty accumulated batch, a
received record triggers a size-threshold flush, yet the interval timer is
not rearmed — refuting "after every triggered flush the interval timer is
rearmed". -/
theorem size_flush_does_not_rearm_cex :
    (batchProcessorStep 1 [] (.recv { requestId := "r", count := 1 })).flushed
        = some [{ requestId := "r", count := 1 }] ∧
      (batchProcessorStep 1 [] (.recv { requestId := "r", count := 1 })).timerRearmed
        = false := by
  refine ⟨rfl, rfl⟩

/-- C3 amended: the interval timer is rearmed exactly by timer-fire
iterations — after every timer-triggered flush (and after every timer fire
even with an empty batch), but never by a size-triggered flush, so the next
timer fire occurs one interval after the previous timer fire, not
necessarily one interval after the previous flush. -/
theorem timer_rearmed_iff_timer_fire (batchSize : Int)
    (batch : List ActivityRequestDto) (ev : BatchEvent) :
    (batchProcessorStep batchSize batch ev).timerRearmed = true
      ↔ ev = BatchEvent.timerFire := by
  cases ev with
  | recv e =>
    simp only [batchProcessorStep]
    split <;> simp
  | timerFire =>
    simp only [batchProcessorStep]
    split <;> simp

end Activity

namespace Cache

/-- Source struct `CachedResponse` (src/unnamed/part_002 lines 11-15): the
stored response envelope — status code, header multimap, raw body bytes. -/
structure CachedResponse where
  statusCode : Int
  headers : List (String × List String)
  body : List Nat
deriving Repr, DecidableEq

/-- Value stored under a key in the KV store, as the cache read path
distinguishes them: the empty string (also what `Get` yields for an absent
key), a non-empty string that fails to gob-decode into `CachedResponse`
(a corrupted entry), or the gob encoding of an envelope (always
non-empty, and gob decoding inverts gob encoding). -/
inductive StoreVal
  | emptyStr
  | corrupt
  | encoded (e : CachedResponse)
deriving Repr, DecidableEq

/-- KV store contents relevant to the response cache: an association list
from keys to stored values. -/
abbrev Store : Type := List (String × StoreVal)

/-- Lookup of a key in the store (`respClient.Get`; `none` means the store
has no entry, for which `Get` returns the empty string). -/
def storeGet : Store → String → Option StoreVal
  | [], _ => none
  | (k', v) :: rest, k => if k' = k then some v else storeGet rest k

/-- Removal of a key from the store (`respClient.Delete`). -/
def storeDelete : Store → String → Store
  | [], _ => []
  | (k', v) :: rest, k =>
    if k' = k then storeDelete rest k else (k', v) :: storeDelete rest k

/-- Write of a key with a time-to-live (`respClient.SetWithTTL`); the TTL
itself is not part of the modelled state, since no claim reasons about
cache-entry expiry. -/
def storeSetWithTTL (s : Store) (k : String) (v : StoreVal) (_ttl : Int) :
    Store :=
  (k, v) :: storeDelete s k

/-- Observable outcome of one `cache.ServeHTTP` call: the envelopes written
to the real response writer in order, how many times the upstream handler
was invoked, and the store afterwards. -/
structure ServeResult where
  written : List CachedResponse
  upstreamCalls : Nat
  store : Store
deriving DecidableEq

/-- Miss path of `cache.ServeHTTP` (src/unnamed/part_002 lines 57-79).
Modelled from the spec: the `responseRecorder` type the source wraps the
writer with is not among the repository files; per the spec it captures
status code, headers and body while delegating to the upstream handler, so
the captured envelope is the upstream handler's response.  After the
handler returns, the envelope is gob-encoded and stored with the configured
TTL — the source assigns the `SetWithTTL` error to `err` and never checks
it, so a failed write (modelled by `writeOk = false`, leaving the store
unchanged) has no further effect — and then status, headers and body are
written to the real caller exactly once. -/
def missPath (cacheExpiry : Int) (writeOk : Bool) (store : Store)
    (key : String) (upstream : CachedResponse) : ServeResult :=
  let store2 :=
    if writeOk then storeSetWithTTL store key (.encoded upstream) cacheExpiry
    else store
  { written := [upstream], upstreamCalls := 1, store := store2 }

/-- Embedding of `cache.ServeHTTP` (src/unnamed/part_002 lines 32-79).
The cache key is the request path; `getErr` is whether `respClient.Get`
itself failed (the source requires `err == nil && cachedData != ""` to
attempt a hit).  A stored envelope is replayed to the caller without
touching the upstream handler; a non-empty value that fails to decode is
deleted from the store and the request falls through to the miss path; an
absent or empty value falls through to the miss path directly. -/
def serveHTTP (cacheExpiry : Int) (getErr : Bool) (writeOk : Bool)
    (store : Store) (key : String) (upstream : CachedResponse) : ServeResult :=
  match (if getErr then none else storeGet store key) with
  | some (.encoded e) => { written := [e], upstreamCalls := 0, store := store }
  | some .corrupt =>
    missPath cacheExpiry writeOk (storeDelete store key) key upstream
  | some .emptyStr => missPath cacheExpiry writeOk store key upstream
  | none => missPath cacheExpiry writeOk store key upstream

/-- Envelope a read of the key would replay, if any: the source attempts a
hit only when `Get` succeeded, the value is non-empty and it decodes. -/
def hitValue (getErr : Bool) (store : Store) (key : String) :
    Option CachedResponse :=
  match (if getErr then none else storeGet store key) with
  | some (.encoded e) => some e
  | _ => none

/-- Deleting a key removes it from the store. -/
theorem storeGet_delete_self (s : Store) (k : String) :
    storeGet (storeDelete s k) k = none := by
  induction s with
  | nil => rfl
  | cons p rest ih =>
    obtain ⟨k', v⟩ := p
    by_cases hk : k' = k
    · simp [storeDelete, hk, ih]
    · simp [storeDelete, storeGet, hk, ih]

/-- Writing a key makes it the stored value at that key. -/
theorem storeGet_set_self (s : Store) (k : String) (v : StoreVal) (ttl : Int) :
    storeGet (storeSetWithTTL s k v ttl) k = some v := by
  simp [storeSetWithTTL, storeGet]

/-- C5: a cache read that finds a stored non-empty value which fails to
decode deletes that key and proceeds on the miss path — the upstream
handler is invoked once, its response (and no error) is written to the end
caller, and the envelope is re-stored — so the corrupted entry is absent
from the store on the subsequent read: afterwards the key holds the fresh
envelope when the write succeeded and nothing at all when it failed, never
the corrupted value. -/
theorem corrupt_entry_self_heals (ttl : Int) (writeOk : Bool) (store : Store)
    (key : String) (up : CachedResponse)
    (h : storeGet store key = some StoreVal.corrupt) :
    (serveHTTP ttl false writeOk store key up).upstreamCalls = 1 ∧
      (serveHTTP ttl false writeOk store key up).written = [up] ∧
      storeGet (serveHTTP ttl false writeOk store key up).store key
        ≠ some StoreVal.corrupt ∧
      (writeOk = true →
        storeGet (serveHTTP ttl false writeOk store key up).store key
          = some (StoreVal.encoded up)) ∧
      (writeOk = false →
        storeGet (serveHTTP ttl false writeOk store key up).store key = none) := by
  simp only [serveHTTP, if_neg, Bool.false_eq_true, not_false_iff, ite_false, h]
  cases writeOk with
  | false =>
    simp [missPath, storeGet_delete_self]
  | true =>
    simp [missPath, storeGet_set_self]

/-- Witness for C5: a one-entry store holding a corrupted value at `"k"`;
after the request the entry is gone (write failed), and the caller received
the upstream envelope. -/
theorem corrupt_entry_self_heals_witness :
    (serveHTTP 1 false false [("k", StoreVal.corrupt)] "k"
        { statusCode := 200, headers := [], body := [] }).upstreamCalls = 1 ∧
      (serveHTTP 1 false false [("k", StoreVal.corrupt)] "k"
        { statusCode := 200, headers := [], body := [] }).written
        = [{ statusCode := 200, headers := [], body := [] }] ∧
      storeGet (serveHTTP 1 false false [("k", StoreVal.corrupt)] "k"
        { statusCode := 200, headers := [], body := [] }).store "k"
        ≠ some StoreVal.corrupt ∧
      (false = true →
        storeGet (serveHTTP 1 false false [("k", StoreVal.corrupt)] "k"
          { statusCode := 200, headers := [], body := [] }).store "k"
          = some (StoreVal.encoded { statusCode := 200, headers := [], body := [] })) ∧
      (false = false →
        storeGet (serveHTTP 1 false false [("k", StoreVal.corrupt)] "k"
          { statusCode := 200, headers := [], body := [] }).store "k" = none) :=
  corrupt_entry_self_heals 1 false [("k", StoreVal.corrupt)] "k"
    { statusCode := 200, headers := [], body := [] } (by decide)

/-- C6: on every cache miss (no valid hit is available, whether the key is
absent, empty, corrupted, or the read itself failed), the upstream
handler's captured envelope is written to the real caller exactly once and
the upstream handler is invoked exactly once, for BOTH values of `writeOk`
— a failed store write never prevents or alters the client's response. -/
theorem miss_replays_upstream_once (ttl : Int) (writeOk getErr : Bool)
    (store : Store) (key : String) (up : CachedResponse)
    (h : hitValue getErr store key = none) :
    (serveHTTP ttl getErr writeOk store key up).written = [up] ∧
      (serveHTTP ttl getErr writeOk store key up).upstreamCalls = 1 := by
  unfold serveHTTP
  unfold hitValue at h
  cases getErr with
  | true => simp [missPath]
  | false =>
    simp only [Bool.false_eq_true, ite_false] at h ⊢
    cases hv : storeGet store key with
    | none => simp [missPath]
    | some v =>
      cases v with
      | emptyStr => simp [missPath]
      | corrupt => simp [missPath]
      | encoded e => rw [hv] at h; simp at h

/-- Witness for C6: an empty store misses; the caller gets the upstream
envelope once even though the store write fails. -/
theorem miss_replays_upstream_once_witness :
    (serveHTTP 1 false false [] "k"
        { statusCode := 404, headers := [], body := [1, 2] }).written
        = [{ statusCode := 404, headers := [], body := [1, 2] }] ∧
      (serveHTTP 1 false false [] "k"
        { statusCode := 404, headers := [], body := [1, 2] }).upstreamCalls = 1 :=
  miss_replays_upstream_once 1 false false [] "k"
    { statusCode := 404, headers := [], body := [1, 2] } (by decide)

end Cache

/-! ## Plugin entry point (package crossover_managed, src/unnamed/part_000) -/

/-- Source struct `Config` (src/unnamed/part_000 lines 31-42).  Go string
fields are `String`; Go `int` fields are `Int`. -/
structure Config where
  pattern : String
  apiKey : String
  activityAddress : String
  planAddress : String
  redisAddress : String
  redisAuth : String
  cacheExpiry : Int
  bufferSize : Int
  batchSize : Int
  flushInterval : Int
deriving Repr, DecidableEq

/-- Validation failure raised by `New`; each constructor stands for the
corresponding descriptive `fmt.Errorf` message of the source, in source
order (the source phrases each as the field name followed by "can't be
empty"). -/
inductive ConfigError
  | emptyPattern
  | emptyAPIKey
  | emptyActivityAddress
  | emptyPlanAddress
  | emptyRedisAddress
  | zeroCacheExpiry
  | zeroBufferSize
  | zeroBatchSize
  | zeroFlushInterval
deriving Repr, DecidableEq

/-- Result of `New` as observed by its caller: a constructed handler, a
descriptive validation error, or a runtime panic inside one of the
unvalidated constructor calls. -/
inductive NewResult
  | ok
  | err (e : ConfigError)
  | panicked
deriving Repr, DecidableEq

/-- Embedding of `New` (src/unnamed/part_000 lines 64-121): first the exact
sequence of emptiness/zero checks the constructor performs, then the
constructor calls, which can still panic on inputs the checks let through.
The collaborators that decide those panics are passed as oracles:
`patternCompiles` models whether the regexp engine accepts the pattern —
`regexp.MustCompile(config.Pattern)` (line 93) panics when it does not —
and `urlParses` models whether `net/url` parses the plan address —
`NewPlanProxy` (src/unnamed/part_001 lines 32-36) panics when `url.Parse`
returns an error.  In between, `NewActivity` executes
`make(chan activityRequestDto, bufferSize)` (activity/activity.go line 48),
which panics for a negative buffer size (a negative value passes the
`== 0` validation).  No other step of the constructor can fail: the
remaining calls only store their arguments. -/
def New (patternCompiles : String → Bool) (urlParses : String → Bool)
    (c : Config) : NewResult :=
  if c.pattern.length = 0 then .err .emptyPattern
  else if c.apiKey.length = 0 then .err .emptyAPIKey
  else if c.activityAddress.length = 0 then .err .emptyActivityAddress
  else if c.planAddress.length = 0 then .err .emptyPlanAddress
  else if c.redisAddress.length = 0 then .err .emptyRedisAddress
  else if c.cacheExpiry = 0 then .err .zeroCacheExpiry
  else if c.bufferSize = 0 then .err .zeroBufferSize
  else if c.batchSize = 0 then .err .zeroBatchSize
  else if c.flushInterval = 0 then .err .zeroFlushInterval
  else if patternCompiles c.pattern = false then .panicked
  else if c.bufferSize < 0 then .panicked
  else if urlParses c.planAddress = false then .panicked
  else .ok

/-- C8 counterexample: a configuration whose KV-store credentials
(`RedisAuth`) are empty but whose other fields are populated is accepted by
`New`, refuting "every required configuration field — ... KV store address
and credentials, ... — is validated ... and construction fails ... if any
of them is empty or zero".  The oracles are instantiated truthfully for
the concrete inputs: `"p"` compiles as a regular expression and `"pl"`
parses as a URL. -/
theorem redisAuth_not_validated_cex :
    New (fun _ => true) (fun _ => true)
        { pattern := "p", apiKey := "k", activityAddress := "a",
          planAddress := "pl", redisAddress := "r", redisAuth := "",
          cacheExpiry := 1, bufferSize := 1, batchSize := 1,
          flushInterval := 1 } = .ok := rfl

/-- C8 amended: construction returns a descriptive validation error exactly
when one of the nine checked fields — identity-extraction pattern, API key,
telemetry address, plan service address, KV store address, cache TTL,
telemetry buffer size, batch size, flush interval — is empty or zero; the
KV store credentials (`RedisAuth`) are not validated and may be empty.
When all nine checks pass, construction succeeds exactly when the pattern
compiles as a regular expression, the buffer size is non-negative and the
plan address parses as a URL; otherwise the unvalidated constructor calls
panic instead of returning an error. -/
theorem new_ok_iff (patternCompiles urlParses : String → Bool) (c : Config) :
    (New patternCompiles urlParses c = .ok ↔
      (c.pattern.length ≠ 0 ∧ c.apiKey.length ≠ 0 ∧
        c.activityAddress.length ≠ 0 ∧ c.planAddress.length ≠ 0 ∧
        c.redisAddress.length ≠ 0 ∧ c.cacheExpiry ≠ 0 ∧
        c.bufferSize ≠ 0 ∧ c.batchSize ≠ 0 ∧ c.flushInterval ≠ 0 ∧
        patternCompiles c.pattern = true ∧ 0 ≤ c.bufferSize ∧
        urlParses c.planAddress = true)) ∧
    ((∃ e, New patternCompiles urlParses c = .err e) ↔
      (c.pattern.length = 0 ∨ c.apiKey.length = 0 ∨
        c.activityAddress.length = 0 ∨ c.planAddress.length = 0 ∨
        c.redisAddress.length = 0 ∨ c.cacheExpiry = 0 ∨
        c.bufferSize = 0 ∨ c.batchSize = 0 ∨ c.flushInterval = 0)) := by
  unfold New
  by_cases h1 : c.pattern.length = 0
  · rw [if_pos h1]; exact ⟨by simp [h1], by simp [h1]⟩
  rw [if_neg h1]
  by_cases h2 : c.apiKey.length = 0
  · rw [if_pos h2]; exact ⟨by simp [h2], by simp [h2]⟩
  rw [if_neg h2]
  by_cases h3 : c.activityAddress.length = 0
  · rw [if_pos h3]; exact ⟨by simp [h3], by simp [h3]⟩
  rw [if_neg h3]
  by_cases h4 : c.planAddress.length = 0
  · rw [if_pos h4]; exact ⟨by simp [h4], by simp [h4]⟩
  rw [if_neg h4]
  by_cases h5 : c.redisAddress.length = 0
  · rw [if_pos h5]; exact ⟨by simp [h5], by simp [h5]⟩
  rw [if_neg h5]
  by_cases h6 : c.cacheExpiry = 0
  · rw [if_pos h6]; exact ⟨by simp [h6], by simp [h6]⟩
  rw [if_neg h6]
  by_cases h7 : c.bufferSize = 0
  · rw [if_pos h7]; exact ⟨by simp [h7], by simp [h7]⟩
  rw [if_neg h7]
  by_cases h8 : c.batchSize = 0
  · rw [if_pos h8]; exact ⟨by simp [h8], by simp [h8]⟩
  rw [if_neg h8]
  by_cases h9 : c.flushInterval = 0
  · rw [if_pos h9]; exact ⟨by simp [h9], by simp [h9]⟩
  rw [if_neg h9]
  by_cases h10 : patternCompiles c.pattern = false
  · rw [if_pos h10]
    exact ⟨by simp [h10], by simp [h1, h2, h3, h4, h5, h6, h7, h8, h9]⟩
  rw [if_neg h10]
  by_cases h11 : c.bufferSize < 0
  · rw [if_pos h11]
    refine ⟨iff_of_false (by simp) ?_,
      by simp [h1, h2, h3, h4, h5, h6, h7, h8, h9]⟩
    rintro ⟨-, -, -, -, -, -, -, -, -, -, hge, -⟩
    omega
  rw [if_neg h11]
  by_cases h12 : urlParses c.planAddress = false
  · rw [if_pos h12]
    exact ⟨by simp [h12], by simp [h1, h2, h3, h4, h5, h6, h7, h8, h9]⟩
  rw [if_neg h12]
  exact ⟨iff_of_true rfl
      ⟨h1, h2, h3, h4, h5, h6, h7, h8, h9, by simpa using h10, by omega,
        by simpa using h12⟩,
    by simp [h1, h2, h3, h4, h5, h6, h7, h8, h9]⟩

/-- Result of `Crossover.extractUserID` as observed by its caller: the
canonical UUID string, the empty string, or a runtime panic. -/
inductive ExtractResult
  | uid (s : List Char)
  | empty
  | panicked
deriving Repr, DecidableEq

/-- Embedding of `Crossover.extractUserID` (src/unnamed/part_000 lines
185-196).  The regular-expression engine and the google/uuid parser are
external collaborators: `submatches` is what `FindStringSubmatch` returned
(the empty list when the pattern did not match; otherwise its head is the
full match, a Go byte string modelled as `List Char`), and `uuidParse`
models `uuid.Parse` composed with `.String()` (the canonical rendering on
success, `none` on a parse failure).  The source slices the full match as
`match[0][10:]` unconditionally; in Go that expression panics with a
slice-bounds-out-of-range runtime error whenever the match is shorter than
10 bytes, which is the `.panicked` branch. -/
def extractUserID (uuidParse : List Char → Option (List Char))
    (submatches : List (List Char)) : ExtractResult :=
  match submatches with
  | [] => .empty
  | m0 :: _ =>
    if m0.length < 10 then .panicked
    else
      match uuidParse (m0.drop 10) with
      | none => .empty
      | some u => .uid u

/-- C9 counterexample: a pattern whose first match is the 5-byte string
"/api/" makes `extractUserID` panic on `match[0][10:]` rather than return a
UUID or the empty string, refuting "for every request path and every
compiled identity-extraction pattern, extractUserID returns without
panicking". -/
theorem short_match_panics_cex :
    extractUserID (fun _ => none) [String.toList "/api/"]
      = ExtractResult.panicked := rfl

/-- C9 amended: whenever the pattern does not match at all, or its first
match is at least 10 bytes long, `extractUserID` returns without panicking
— either the canonical UUID string or the empty string; a first match
shorter than 10 bytes panics on the unconditional `match[0][10:]` slice. -/
theorem extractUserID_no_panic_of_long_match
    (uuidParse : List Char → Option (List Char)) (m0 : List Char)
    (rest : List (List Char)) (h : 10 ≤ m0.length) :
    extractUserID uuidParse (m0 :: rest) ≠ ExtractResult.panicked ∧
      extractUserID uuidParse [] = ExtractResult.empty := by
  constructor
  · have hstep : extractUserID uuidParse (m0 :: rest)
        = if m0.length < 10 then ExtractResult.panicked
          else
            match uuidParse (m0.drop 10) with
            | none => ExtractResult.empty
            | some u => ExtractResult.uid u := rfl
    rw [hstep, if_neg (by omega)]
    cases uuidParse (m0.drop 10) <;> simp
  · rfl

/-- Witness for C9 amended, at the 10-byte match "/endpoint/" (whose tail
after byte 10 is empty, so the UUID parse fails and the result is the empty
string, not a panic). -/
theorem extractUserID_no_panic_of_long_match_witness :
    extractUserID (fun _ => none) [String.toList "/endpoint/"]
        ≠ ExtractResult.panicked ∧
      extractUserID (fun _ => none) [] = ExtractResult.empty :=
  extractUserID_no_panic_of_long_match (fun _ => none)
    (String.toList "/endpoint/") [] (by decide)

/-- Source constant `MaxRequestBodySize = 2 * 1024 * 1024` (2 MiB) from
src/unnamed/part_000 line 21. -/
def MaxRequestBodySize : Nat := 2 * 1024 * 1024

/-- Request body stream handed to `cloneRequest`: the bytes it can deliver,
and whether reading past them fails with a genuine read error instead of a
clean end-of-stream. -/
structure BodyStream where
  bytes : List Nat
  readFails : Bool
deriving Repr, DecidableEq

/-- Error with which `io.CopyN` stops early: clean end-of-stream (`io.EOF`,
fewer than `n` bytes were available) or a genuine read failure. -/
inductive CopyErr
  | eof
  | readFailure
deriving Repr, DecidableEq

/-- Embedding of `io.CopyN(buf, req.Body, n)`: it copies at most `n` bytes;
when the source delivers `n` bytes the error is nil, and when the source
ends first the copied prefix is everything available and the error is
`io.EOF` (or the genuine read error, when reading past the delivered bytes
fails). -/
def copyN (src : BodyStream) (n : Nat) : List Nat × Option CopyErr :=
  if n ≤ src.bytes.length then (src.bytes.take n, none)
  else (src.bytes, if src.readFails then some .readFailure else some .eof)

/-- Embedding of `Crossover.cloneRequest` (src/unnamed/part_000 lines
207-225): copy at most `MaxRequestBodySize` bytes of the body into the
pooled buffer; an error other than `io.EOF` is returned as
"error reading request body"; otherwise both the onward request body and
the cloned request body become readers over the buffered bytes.  The
returned pair is (onward body, cloned body). -/
def cloneRequest (src : BodyStream) : Except String (List Nat × List Nat) :=
  let r := copyN src MaxRequestBodySize
  match r.2 with
  | some .readFailure => .error "error reading request body"
  | _ => .ok (r.1, r.1)

/-- C10: for a body whose read does not fail, `cloneRequest` succeeds and
both the onward body and the cloned body are exactly the first
min(original length, 2 MiB) bytes of the original body — a body larger
than 2 MiB is silently truncated at 2 MiB. -/
theorem cloneRequest_truncates (src : BodyStream) (h : src.readFails = false) :
    cloneRequest src
      = .ok (src.bytes.take MaxRequestBodySize,
             src.bytes.take MaxRequestBodySize) := by
  unfold cloneRequest copyN
  by_cases hl : MaxRequestBodySize ≤ src.bytes.length
  · simp [hl]
  · have hle : src.bytes.length ≤ MaxRequestBodySize := by omega
    simp [hl, h, List.take_of_length_le hle]

/-- Witness for C10 on a 3-byte body: both returned bodies are the body
itself (its length is below 2 MiB). -/
theorem cloneRequest_truncates_witness :
    cloneRequest { bytes := [1, 2, 3], readFails := false }
      = .ok ([1, 2, 3], [1, 2, 3]) := by
  have h := cloneRequest_truncates { bytes := [1, 2, 3], readFails := false } rfl
  rw [List.take_of_length_le (by decide)] at h
  exact h

end Crossover
